import Mathlib

/-!
Shallow embedding of `src/analytics/pubsub_consumer.py`: a Google Cloud
Pub/Sub subscriber that decodes each received "goal event" message and either
writes it to a Databricks SQL table (when credentials and optional imports are
available) or logs it to the console (local-only mode).

External effects (imports succeeding, the outcome of `sql.connect`, whether
`df.to_sql` raises) are modelled as explicit inputs; the script itself is
embedded as pure functions from those inputs to the actions it performs.
Python exceptions are modelled as an `Option` error component accompanying the
prefix of actions already performed when the exception was raised.
-/

namespace PubsubConsumer

/-- JSON values as produced by `json.loads`. -/
inductive Json where
  | str (s : String)
  | num (n : Int)
  | bool (b : Bool)
  | null
  | arr (xs : List Json)
  | obj (fields : List (String × Json))

/-- Python truthiness of an optional string (an `os.getenv` result):
`None` and the empty string are falsy. -/
def truthy : Option String → Bool
  | none => false
  | some s => !(s == "")

/-- The environment variables the script reads (lines 26-28 and 67-69).
`none` models an unset variable. -/
structure Env where
  firestoreProjectId : Option String
  pubsubTopic : Option String
  pubsubEmulatorHost : Option String
  databricksHost : Option String
  databricksHttpPath : Option String
  databricksToken : Option String

/-- Outcome of the conditional `from databricks import sql` (line 74). -/
inductive DbImport where
  | ok
  | importError
deriving DecidableEq

/-- A Databricks connection handle, as returned by `sql.connect`. -/
structure Conn where
  id : Nat
deriving DecidableEq

/-- Outcome of the guarded `sql.connect(...)` call (lines 88-92): success,
the SIGALRM-driven `TimeoutError` raised by `timeout_handler` after the
5-second alarm, or any other exception with its message text. -/
inductive ConnectOutcome where
  | success (c : Conn)
  | timeout
  | failure (msg : String)

/-- The import and connection outcomes external to the script: whether
`import pandas` succeeds (lines 9-14), whether `from databricks import sql`
succeeds (line 74), and what `sql.connect` would do if called (lines 88-92). -/
structure World where
  pandasImport : Bool
  databricksImport : DbImport
  connectOutcome : ConnectOutcome

/-- Result of the Databricks connection block, lines 63-113: the final value
of `conn` and `DATABRICKS_AVAILABLE`, whether `sql.connect` was reached,
whether a SIGALRM alarm is still pending afterwards, and the lines printed. -/
structure DbSetupResult where
  conn : Option Conn
  databricksAvailable : Bool
  connectAttempted : Bool
  pendingAlarm : Bool
  log : List String

/-- Lines 63-113: `conn` starts as `None`; only when DATABRICKS_HOST,
DATABRICKS_HTTP_PATH and DATABRICKS_TOKEN are all truthy is the import tried,
a 5-second alarm armed, and `sql.connect` called.  On success the alarm is
cancelled (line 93); on the handler-raised `TimeoutError` the alarm has
already fired, so none is pending; on any other exception the alarm is
cancelled (line 100) and `conn` is reset to `None`. -/
def databricksSetup (env : Env) (w : World) : DbSetupResult :=
  if truthy env.databricksHost && truthy env.databricksHttpPath && truthy env.databricksToken then
    match w.databricksImport with
    | .importError =>
        { conn := none, databricksAvailable := false, connectAttempted := false,
          pendingAlarm := false,
          log := ["Warning: databricks-sql-connector not available. Running in local-only mode."] }
    | .ok =>
        match w.connectOutcome with
        | .success c =>
            { conn := some c, databricksAvailable := true, connectAttempted := true,
              pendingAlarm := false,
              log := ["Connected to Databricks - events will be written to database"] }
        | .timeout =>
            { conn := none, databricksAvailable := true, connectAttempted := true,
              pendingAlarm := false,
              log := ["Databricks connection timed out - likely invalid credentials",
                      "Running in local-only mode - events will only be logged"] }
        | .failure m =>
            { conn := none, databricksAvailable := true, connectAttempted := true,
              pendingAlarm := false,
              log := ["Failed to connect to Databricks: " ++ m,
                      "Running in local-only mode - events will only be logged"] }
  else
    { conn := none, databricksAvailable := false, connectAttempted := false,
      pendingAlarm := false,
      log := ["Databricks credentials not found - running in local-only mode"] }

/-- Everything the startup portion of the script computes that later code can
observe (lines 26-41 and 63-113).  The topic/subscription creation block
(lines 43-61) only calls the Pub/Sub client library and logs its outcome; it
produces no state used elsewhere and is not modelled. -/
structure StartupResult where
  projectId : Option String
  goalTopic : String
  topicPath : String
  subscriptionPath : String
  pandasAvailable : Bool
  db : DbSetupResult
  startupLog : List String

/-- Rendering of an optional string inside a Python f-string: `None` prints
as the text "None". -/
def pyOptStr : Option String → String
  | none => "None"
  | some s => s

/-- Lines 26-41 and 63-113.  GOAL_TOPIC is read from PUBSUB_TOPIC with
default "goal-events" (line 27); the topic and subscription paths are built
by the client from PROJECT_ID and the hard-coded names "goal-events" and
"goal-events-sub" (lines 40-41). -/
def startup (env : Env) (w : World) : StartupResult :=
  let db := databricksSetup env w
  { projectId := env.firestoreProjectId,
    goalTopic := env.pubsubTopic.getD "goal-events",
    topicPath := "projects/" ++ pyOptStr env.firestoreProjectId ++ "/topics/goal-events",
    subscriptionPath :=
      "projects/" ++ pyOptStr env.firestoreProjectId ++ "/subscriptions/goal-events-sub",
    pandasAvailable := w.pandasImport,
    db := db,
    startupLog :=
      (if w.pandasImport then []
       else ["Warning: pandas not available. Analytics will run in local-only mode."]) ++
      (if truthy env.pubsubEmulatorHost then
        ["Using PubSub emulator at " ++ pyOptStr env.pubsubEmulatorHost]
       else []) ++
      db.log }

/-- Python str() of a value obtained from `json.loads`, as interpolated into
an f-string.  A top-level string prints bare; nested values print in repr
form (strings quoted, dicts in braces, True/False/None capitalized). -/
def pyRepr : Json → String
  | .str s => "\x27" ++ s ++ "\x27"
  | .num n => toString n
  | .bool true => "True"
  | .bool false => "False"
  | .null => "None"
  | .arr xs => "[" ++ String.intercalate ", " (xs.attach.map fun x => pyRepr x.1) ++ "]"
  | .obj fs =>
      "\x7b" ++
        String.intercalate ", "
          (fs.attach.map fun x => "\x27" ++ x.1.1 ++ "\x27: " ++ pyRepr x.1.2) ++
      "\x7d"
decreasing_by
  · simp_wf
    have := List.sizeOf_lt_of_mem x.2
    omega
  · simp_wf
    have h1 := List.sizeOf_lt_of_mem x.2
    obtain ⟨x, hx⟩ := x
    obtain ⟨k, v⟩ := x
    simp at h1 ⊢
    omega

/-- Python str() for f-string interpolation: bare text for a string, repr
form otherwise. -/
def pyStr : Json → String
  | .str s => s
  | j => pyRepr j

/-- Python dict.get(key, default) on a decoded JSON value.  On a non-dict it
raises AttributeError, modelled as `none`. -/
def Json.get : Json → String → Json → Option Json
  | .obj fs, k, d => some ((fs.lookup k).getD d)
  | _, _, _ => none

/-- Python dict.items() on a decoded JSON value; raises AttributeError
(modelled as `none`) on a non-dict. -/
def Json.items : Json → Option (List (String × Json))
  | .obj fs => some fs
  | _ => none

/-- A received Pub/Sub message as the callback sees it.  `decoded` is the
result of `json.loads(message.data.decode("utf-8"))` (line 116); `none`
models the decode or parse raising. -/
structure Message where
  decoded : Option Json
  publishTime : String

/-- The observable actions the callback body performs. -/
inductive Action where
  | print (s : String)
  | sqlWrite (table : String) (ifExists : String) (record : Json)
  | ack

/-- The state the callback closes over, plus whether the
`pd.json_normalize` / `df.to_sql` write (lines 135-136) would raise. -/
structure CallbackCtx where
  conn : Option Conn
  pandasAvailable : Bool
  toSqlRaises : Bool

/-- Python exceptions the callback body can raise. -/
inductive PyError where
  | jsonDecode
  | attributeError
  | toSqlError
deriving DecidableEq

/-- 50 copies of "=", from `"=" * 50` (lines 119, 121, 147). -/
def eqLine : String := String.mk (List.replicate 50 (Char.ofNat 61))

/-- 50 copies of "-", from `"-" * 50` (line 131). -/
def dashLine : String := String.mk (List.replicate 50 (Char.ofNat 45))

/-- Line 145: the final else of the local-only branch. -/
def prodMessage : String :=
  "🔧 Local-only mode: Event logged to console (would be written to Databricks in production)"

/-- Lines 140-145: the message printed in local-only mode. -/
def localOnlyMessage (conn : Option Conn) (pandasAvailable : Bool) : String :=
  if !pandasAvailable then
    "🔧 Local-only mode: pandas not available, event logged to console"
  else if conn.isNone then
    "🔧 Local-only mode: No Databricks connection, event logged to console"
  else
    prodMessage

/-- The callback, lines 115-150, as a pure function returning the actions
performed in order and the exception raised, if any.  The trace component is
the prefix of actions completed before the exception. -/
def callback (ctx : CallbackCtx) (msg : Message) : List Action × Option PyError :=
  match msg.decoded with
  | none => ([], some .jsonDecode)
  | some data =>
    let pre : List Action :=
      [.print eqLine, .print "🎯 RECEIVED EVENT", .print eqLine,
       .print ("📅 Timestamp: " ++ msg.publishTime)]
    match data.get "type" (.str "unknown") with
    | none => (pre, some .attributeError)
    | some ty =>
      let pre := pre ++
        [.print ("📝 Event Type: " ++ pyStr ty), .print "📦 Payload:"]
      match data.get "payload" (.obj []) with
      | none => (pre, some .attributeError)
      | some payload =>
        match payload.items with
        | none => (pre, some .attributeError)
        | some fields =>
          let pre := pre ++
            (fields.map fun kv => Action.print ("   " ++ kv.1 ++ ": " ++ pyStr kv.2)) ++
            [.print dashLine]
          if ctx.conn.isSome && ctx.pandasAvailable then
            if ctx.toSqlRaises then
              (pre, some .toSqlError)
            else
              (pre ++
                [.sqlWrite "goal_events" "append" data,
                 .print "✅ Event written to Databricks database",
                 .print eqLine, .print "", .ack], none)
          else
            (pre ++
              [.print (localOnlyMessage ctx.conn ctx.pandasAvailable),
               .print eqLine, .print "", .ack], none)

/-- Whether an action is a console print. -/
def Action.isPrint : Action → Bool
  | .print _ => true
  | _ => false

/-- Whether an action is the `message.ack()` call. -/
def Action.isAck : Action → Bool
  | .ack => true
  | _ => false

/-- Whether an action is a SQL write. -/
def Action.isSqlWrite : Action → Bool
  | .sqlWrite _ _ _ => true
  | _ => false

/-- Whether an action prints exactly the given string. -/
def printsStr (s : String) : Action → Bool
  | .print s2 => s2 == s
  | _ => false

/-- Whether the startup selected Databricks mode (a live connection) rather
than local-only mode. -/
def modeDatabricks (r : StartupResult) : Bool := r.db.conn.isSome

/-- The state the callback closure captures from a completed startup. -/
def ctxOf (r : StartupResult) (toSqlRaises : Bool) : CallbackCtx :=
  ⟨r.db.conn, r.pandasAvailable, toSqlRaises⟩

/-! Helper lemmas about strings, used to separate log lines that embed
run-time text from fixed log lines. -/

theorem string_data_append (p t : String) : (p ++ t).data = p.data ++ t.data := by
  cases p; cases t; rfl

theorem head_append (p t : String) (c : Char) (hp : p.data.head? = some c) :
    (p ++ t).data.head? = some c := by
  rw [string_data_append]
  cases hd : p.data with
  | nil => simp [hd] at hp
  | cons a l =>
    rw [hd] at hp
    simp at hp
    subst hp
    rfl

theorem string_ne_of_head (s u : String) (h : s.data.head? ≠ u.data.head?) : s ≠ u := by
  intro he
  exact h (by rw [he])

theorem getLast?_cons_append (a z : α) (l ys : List α) :
    (a :: (l ++ (ys ++ [z]))).getLast? = some z := by
  have h : a :: (l ++ (ys ++ [z])) = (a :: (l ++ ys)) ++ [z] := by simp
  rw [h, List.getLast?_concat]

/-! Concrete sample inputs used by the witnesses. -/

def sampleConn : Conn := ⟨0⟩

def sampleData : Json :=
  Json.obj [("type", Json.str "goal"),
            ("payload", Json.obj [("team", Json.str "home"), ("score", Json.num 2)])]

def sampleMsg : Message := ⟨some sampleData, "2024-01-01T00:00:00Z"⟩

def dbCtx : CallbackCtx := ⟨some sampleConn, true, false⟩

def localCtx : CallbackCtx := ⟨none, true, false⟩

def credEnv : Env := ⟨some "proj", none, none, some "dbc.example.com", some "/sql/1.0", some "tok"⟩

def noCredEnv : Env := ⟨some "proj", none, none, none, some "/sql/1.0", some "tok"⟩

def okWorld : World := ⟨true, DbImport.ok, ConnectOutcome.success sampleConn⟩

def timeoutWorld : World := ⟨true, DbImport.ok, ConnectOutcome.timeout⟩

/-- Claim C3: at startup, when any of DATABRICKS_HOST, DATABRICKS_HTTP_PATH,
DATABRICKS_TOKEN is unset or empty, or the databricks-sql-connector import
fails, the guarded sql.connect call is never reached, conn ends up None, and
the script continues in local-only mode. -/
theorem c3_missing_credentials_local_only (env : Env) (w : World)
    (h : (truthy env.databricksHost && truthy env.databricksHttpPath &&
          truthy env.databricksToken) = false ∨
         w.databricksImport = DbImport.importError) :
    (databricksSetup env w).connectAttempted = false ∧
    (databricksSetup env w).conn = none := by
  rcases h with h | h
  · simp [databricksSetup, h]
  · unfold databricksSetup
    rw [h]
    split <;> simp

/-- Witness for C3 at a concrete environment with DATABRICKS_HOST unset. -/
theorem c3_missing_credentials_local_only_witness :
    (databricksSetup noCredEnv okWorld).connectAttempted = false ∧
    (databricksSetup noCredEnv okWorld).conn = none :=
  c3_missing_credentials_local_only noCredEnv okWorld (Or.inl (by decide))

/-- Claim C5: with credentials present and the import succeeding, if the
guarded sql.connect raises the handler TimeoutError or any other exception,
then no alarm is left pending, conn is set to None, and the script logs that
it continues in local-only mode instead of crashing. -/
theorem c5_connect_failure_guarded (env : Env) (w : World)
    (hcred : (truthy env.databricksHost && truthy env.databricksHttpPath &&
              truthy env.databricksToken) = true)
    (himp : w.databricksImport = DbImport.ok)
    (hout : w.connectOutcome = ConnectOutcome.timeout ∨
            ∃ m, w.connectOutcome = ConnectOutcome.failure m) :
    (databricksSetup env w).conn = none ∧
    (databricksSetup env w).pendingAlarm = false ∧
    "Running in local-only mode - events will only be logged" ∈
      (databricksSetup env w).log := by
  rcases hout with h | ⟨m, h⟩ <;> simp [databricksSetup, hcred, himp, h]

/-- Witness for C5 at a concrete environment whose connection times out. -/
theorem c5_connect_failure_guarded_witness :
    (databricksSetup credEnv timeoutWorld).conn = none ∧
    (databricksSetup credEnv timeoutWorld).pendingAlarm = false ∧
    "Running in local-only mode - events will only be logged" ∈
      (databricksSetup credEnv timeoutWorld).log :=
  c5_connect_failure_guarded credEnv timeoutWorld (by decide) rfl (Or.inl rfl)

/-- Claim C8: with the five environment variables FIRESTORE_PROJECT_ID,
PUBSUB_EMULATOR_HOST, DATABRICKS_HOST, DATABRICKS_HTTP_PATH and
DATABRICKS_TOKEN fixed, and the import and connection outcomes fixed, two
runs are deterministic: they select the same mode, produce the same startup
log and Databricks state, and the callback produces identical actions and
the same write decision on the same message. -/
theorem c8_deterministic (env1 env2 : Env) (w1 w2 : World) (b : Bool) (msg : Message)
    (h1 : env1.firestoreProjectId = env2.firestoreProjectId)
    (h2 : env1.pubsubEmulatorHost = env2.pubsubEmulatorHost)
    (h3 : env1.databricksHost = env2.databricksHost)
    (h4 : env1.databricksHttpPath = env2.databricksHttpPath)
    (h5 : env1.databricksToken = env2.databricksToken)
    (hw : w1 = w2) :
    modeDatabricks (startup env1 w1) = modeDatabricks (startup env2 w2) ∧
    (startup env1 w1).db = (startup env2 w2).db ∧
    (startup env1 w1).startupLog = (startup env2 w2).startupLog ∧
    callback (ctxOf (startup env1 w1) b) msg = callback (ctxOf (startup env2 w2) b) msg := by
  subst hw
  have hdb : databricksSetup env1 w1 = databricksSetup env2 w1 := by
    unfold databricksSetup
    rw [h3, h4, h5]
  refine ⟨?_, ?_, ?_, ?_⟩ <;> simp [startup, modeDatabricks, ctxOf, hdb, h1, h2]

/-- Witness for C8: two environments that differ only in PUBSUB_TOPIC. -/
theorem c8_deterministic_witness :
    modeDatabricks (startup credEnv okWorld) =
      modeDatabricks (startup ⟨some "proj", some "other-topic", none, some "dbc.example.com",
        some "/sql/1.0", some "tok"⟩ okWorld) ∧
    (startup credEnv okWorld).db =
      (startup ⟨some "proj", some "other-topic", none, some "dbc.example.com",
        some "/sql/1.0", some "tok"⟩ okWorld).db ∧
    (startup credEnv okWorld).startupLog =
      (startup ⟨some "proj", some "other-topic", none, some "dbc.example.com",
        some "/sql/1.0", some "tok"⟩ okWorld).startupLog ∧
    callback (ctxOf (startup credEnv okWorld) false) sampleMsg =
      callback (ctxOf (startup ⟨some "proj", some "other-topic", none, some "dbc.example.com",
        some "/sql/1.0", some "tok"⟩ okWorld) false) sampleMsg :=
  c8_deterministic credEnv
    ⟨some "proj", some "other-topic", none, some "dbc.example.com", some "/sql/1.0", some "tok"⟩
    okWorld okWorld false sampleMsg rfl rfl rfl rfl rfl rfl

/-- Claim C9: PUBSUB_TOPIC has no effect.  GOAL_TOPIC is read from it (with
default "goal-events") but never used; the topic and subscription paths are
built from the hard-coded names "goal-events" and "goal-events-sub"; and
every observable part of startup is unchanged when only PUBSUB_TOPIC
changes. -/
theorem c9_pubsub_topic_unused (env : Env) (w : World) (t : Option String) :
    (startup { env with pubsubTopic := t } w).goalTopic = t.getD "goal-events" ∧
    (startup { env with pubsubTopic := t } w).topicPath =
      "projects/" ++ pyOptStr env.firestoreProjectId ++ "/topics/goal-events" ∧
    (startup { env with pubsubTopic := t } w).subscriptionPath =
      "projects/" ++ pyOptStr env.firestoreProjectId ++ "/subscriptions/goal-events-sub" ∧
    (startup { env with pubsubTopic := t } w).topicPath = (startup env w).topicPath ∧
    (startup { env with pubsubTopic := t } w).subscriptionPath =
      (startup env w).subscriptionPath ∧
    (startup { env with pubsubTopic := t } w).db = (startup env w).db ∧
    (startup { env with pubsubTopic := t } w).pandasAvailable =
      (startup env w).pandasAvailable ∧
    (startup { env with pubsubTopic := t } w).startupLog = (startup env w).startupLog := by
  cases env
  exact ⟨rfl, rfl, rfl, rfl, rfl, rfl, rfl, rfl⟩

/-- Claim C1: when a Databricks connection was established and pandas
imported, the callback decodes the message body as UTF-8 JSON and appends
the decoded record to the SQL table "goal_events", finishing without an
exception.  Stated for a message processed normally: the body decodes to a
JSON object, its payload field (when present) is an object, and the write
itself does not raise. -/
theorem c1_databricks_write (ctx : CallbackCtx) (msg : Message) (data : Json)
    (fs pf : List (String × Json))
    (hconn : ctx.conn.isSome = true)
    (hpandas : ctx.pandasAvailable = true)
    (hsql : ctx.toSqlRaises = false)
    (hdec : msg.decoded = some data)
    (hobj : data = Json.obj fs)
    (hpayload : (fs.lookup "payload").getD (Json.obj []) = Json.obj pf) :
    (callback ctx msg).2 = none ∧
    Action.sqlWrite "goal_events" "append" data ∈ (callback ctx msg).1 := by
  subst hobj
  simp [callback, hdec, Json.get, Json.items, hpayload, hconn, hpandas, hsql]

/-- Witness for C1 on a concrete goal-event message. -/
theorem c1_databricks_write_witness :
    (callback dbCtx sampleMsg).2 = none ∧
    Action.sqlWrite "goal_events" "append" sampleData ∈ (callback dbCtx sampleMsg).1 :=
  c1_databricks_write dbCtx sampleMsg sampleData
    [("type", Json.str "goal"),
     ("payload", Json.obj [("team", Json.str "home"), ("score", Json.num 2)])]
    [("team", Json.str "home"), ("score", Json.num 2)]
    rfl rfl rfl rfl rfl rfl

/-- Every action the callback performs when the write branch is not taken is
a console print or the final ack. -/
theorem callback_print_or_ack (ctx : CallbackCtx) (msg : Message)
    (hcond : (ctx.conn.isSome && ctx.pandasAvailable) = false) :
    ((callback ctx msg).1.all fun a => a.isPrint || a.isAck) = true := by
  rcases hmd : msg.decoded with _ | data
  · simp [callback, hmd]
  · rcases hg : data.get "type" (.str "unknown") with _ | ty
    · simp [callback, hmd, hg, Action.isPrint]
    · rcases hg2 : data.get "payload" (.obj []) with _ | payload
      · simp [callback, hmd, hg, hg2, Action.isPrint]
      · rcases hi : payload.items with _ | fields
        · simp [callback, hmd, hg, hg2, hi, Action.isPrint]
        · simp [callback, hmd, hg, hg2, hi, hcond, Action.isPrint, Action.isAck,
                List.all_append, List.all_map, Function.comp]
          intro a k v _ hx
          rw [← hx]
          exact Or.inl rfl

/-- Claim C2: when pandas is unavailable or conn is None, the callback
performs no SQL write at all; every action it takes is a console print,
apart from the final ack. -/
theorem c2_local_only_no_write (ctx : CallbackCtx) (msg : Message)
    (h : ctx.conn = none ∨ ctx.pandasAvailable = false) :
    (∀ a ∈ (callback ctx msg).1, a.isSqlWrite = false) ∧
    (∀ a ∈ (callback ctx msg).1, a.isPrint = true ∨ a = Action.ack) := by
  have hcond : (ctx.conn.isSome && ctx.pandasAvailable) = false := by
    rcases h with h | h <;> simp [h]
  have hall := callback_print_or_ack ctx msg hcond
  rw [List.all_eq_true] at hall
  constructor
  · intro a ha
    have := hall a ha
    cases a <;> simp_all [Action.isPrint, Action.isAck, Action.isSqlWrite]
  · intro a ha
    have := hall a ha
    cases a <;> simp_all [Action.isPrint, Action.isAck]

/-- Witness for C2 with no Databricks connection. -/
theorem c2_local_only_no_write_witness :
    (∀ a ∈ (callback localCtx sampleMsg).1, a.isSqlWrite = false) ∧
    (∀ a ∈ (callback localCtx sampleMsg).1, a.isPrint = true ∨ a = Action.ack) :=
  c2_local_only_no_write localCtx sampleMsg (Or.inl rfl)

/-- Claim C7: the callback acks exactly once, as its very last action, and
only after decoding, logging and the optional Databricks write completed; on
any exception (json.loads, attribute access, or the write raising) the
message is never acknowledged. -/
theorem c7_ack_exactly_once_last (ctx : CallbackCtx) (msg : Message) :
    ((callback ctx msg).2 = none →
      (callback ctx msg).1.countP Action.isAck = 1 ∧
      (callback ctx msg).1.getLast? = some Action.ack) ∧
    ((callback ctx msg).2 ≠ none →
      (callback ctx msg).1.countP Action.isAck = 0) := by
  rcases hmd : msg.decoded with _ | data
  · simp [callback, hmd]
  · rcases hg : data.get "type" (.str "unknown") with _ | ty
    · simp [callback, hmd, hg, Action.isAck]
    · rcases hg2 : data.get "payload" (.obj []) with _ | payload
      · simp [callback, hmd, hg, hg2, Action.isAck]
      · rcases hi : payload.items with _ | fields
        · simp [callback, hmd, hg, hg2, hi, Action.isAck]
        · rcases hc : (ctx.conn.isSome && ctx.pandasAvailable)
          · simp [callback, hmd, hg, hg2, hi, hc, Action.isAck, List.countP_append,
                  List.countP_map, List.countP_cons, Function.comp, List.getLast?_append]
            exact getLast?_cons_append _ Action.ack _
              [Action.print dashLine,
               Action.print (localOnlyMessage ctx.conn ctx.pandasAvailable),
               Action.print eqLine, Action.print ""]
          · rcases hw : ctx.toSqlRaises
            · simp [callback, hmd, hg, hg2, hi, hc, hw, Action.isAck, List.countP_append,
                    List.countP_map, List.countP_cons, Function.comp, List.getLast?_append]
              exact getLast?_cons_append _ Action.ack _
                [Action.print dashLine, Action.sqlWrite "goal_events" "append" data,
                 Action.print "✅ Event written to Databricks database",
                 Action.print eqLine, Action.print ""]
            · simp [callback, hmd, hg, hg2, hi, hc, hw, Action.isAck, List.countP_append,
                    List.countP_map, List.countP_cons, Function.comp]

/-- Witness for C7 on a concrete successfully processed message. -/
theorem c7_ack_exactly_once_last_witness :
    (callback dbCtx sampleMsg).1.countP Action.isAck = 1 ∧
    (callback dbCtx sampleMsg).1.getLast? = some Action.ack :=
  (c7_ack_exactly_once_last dbCtx sampleMsg).1 rfl

/-- Counterexample to claim C4 as stated: the callback body itself performs
an acknowledgement (line 150 calls message.ack()); on a concrete message its
trace contains exactly one ack action. -/
theorem c4_counterexample :
    (callback localCtx sampleMsg).1.countP Action.isAck = 1 := by
  rfl

/-- Claim C4 amended: message delivery, retry and the transport of
acknowledgements are handled by the Pub/Sub client library, but the script
itself does acknowledge each message: the callback calls message.ack() once
on every message it processes without an exception. -/
theorem c4_amended_callback_acks (ctx : CallbackCtx) (msg : Message)
    (hok : (callback ctx msg).2 = none) :
    (callback ctx msg).1.countP Action.isAck = 1 := by
  rcases hmd : msg.decoded with _ | data
  · simp [callback, hmd] at hok
  · rcases hg : data.get "type" (.str "unknown") with _ | ty
    · simp [callback, hmd, hg] at hok
    · rcases hg2 : data.get "payload" (.obj []) with _ | payload
      · simp [callback, hmd, hg, hg2] at hok
      · rcases hi : payload.items with _ | fields
        · simp [callback, hmd, hg, hg2, hi] at hok
        · rcases hc : (ctx.conn.isSome && ctx.pandasAvailable)
          · simp [callback, hmd, hg, hg2, hi, hc, Action.isAck, List.countP_append,
                  List.countP_map, List.countP_cons, Function.comp]
          · rcases hw : ctx.toSqlRaises
            · simp [callback, hmd, hg, hg2, hi, hc, hw, Action.isAck, List.countP_append,
                    List.countP_map, List.countP_cons, Function.comp]
            · simp [callback, hmd, hg, hg2, hi, hc, hw] at hok

/-- Witness for the amended C4 on a concrete message. -/
theorem c4_amended_callback_acks_witness :
    (callback dbCtx sampleMsg).1.countP Action.isAck = 1 :=
  c4_amended_callback_acks dbCtx sampleMsg rfl

/-! Lines printed by the callback never coincide with the dead final-else
message of the local-only branch: fixed lines differ from it outright, and
lines that embed run-time text start with a different character. -/

theorem eqLine_beq_prod : (eqLine == prodMessage) = false := by decide

theorem dashLine_beq_prod : (dashLine == prodMessage) = false := by decide

theorem recvLine_beq_prod : ("🎯 RECEIVED EVENT" == prodMessage) = false := by decide

theorem payloadHdr_beq_prod : ("📦 Payload:" == prodMessage) = false := by decide

theorem successLine_beq_prod :
    ("✅ Event written to Databricks database" == prodMessage) = false := by decide

theorem emptyLine_beq_prod : ("" == prodMessage) = false := by decide

theorem ts_beq_prod (t : String) :
    (("📅 Timestamp: " ++ t) == prodMessage) = false := by
  rw [beq_eq_false_iff_ne]
  apply string_ne_of_head
  rw [head_append "📅 Timestamp: " t '📅' rfl]
  decide

theorem et_beq_prod (t : String) :
    (("📝 Event Type: " ++ t) == prodMessage) = false := by
  rw [beq_eq_false_iff_ne]
  apply string_ne_of_head
  rw [head_append "📝 Event Type: " t '📝' rfl]
  decide

theorem payload_beq_prod (k v : String) :
    (("   " ++ k ++ ": " ++ v) == prodMessage) = false := by
  rw [beq_eq_false_iff_ne]
  apply string_ne_of_head
  rw [head_append _ v ' ' (head_append _ ": " ' ' (head_append "   " k ' ' rfl))]
  decide

theorem localOnly_beq_prod (conn : Option Conn) (pandasAvailable : Bool)
    (hc : (conn.isSome && pandasAvailable) = false) :
    (localOnlyMessage conn pandasAvailable == prodMessage) = false := by
  unfold localOnlyMessage
  rcases hp : pandasAvailable
  · simp
    decide
  · rcases hcn : conn with _ | c
    · simp
      decide
    · rw [hp, hcn] at hc
      simp at hc

/-- Claim C10: the final else of the local-only logging (line 145) is dead
code.  Reaching it would need conn truthy and PANDAS_AVAILABLE true at once,
contradicting the enclosing else of `if conn and PANDAS_AVAILABLE`; hence the
local-only branch never selects that message and the callback never prints
it. -/
theorem c10_final_else_unreachable (ctx : CallbackCtx) (msg : Message) :
    ((ctx.conn.isSome && ctx.pandasAvailable) = false →
      localOnlyMessage ctx.conn ctx.pandasAvailable ≠ prodMessage) ∧
    Action.print prodMessage ∉ (callback ctx msg).1 := by
  constructor
  · intro hc
    have := localOnly_beq_prod ctx.conn ctx.pandasAvailable hc
    rw [beq_eq_false_iff_ne] at this
    exact this
  · have hcount : (callback ctx msg).1.countP (printsStr prodMessage) = 0 := by
      rcases hmd : msg.decoded with _ | data
      · simp [callback, hmd]
      · rcases hg : data.get "type" (.str "unknown") with _ | ty
        · simp [callback, hmd, hg, List.countP_cons, printsStr,
                eqLine_beq_prod, recvLine_beq_prod, ts_beq_prod]
        · rcases hg2 : data.get "payload" (.obj []) with _ | payload
          · simp [callback, hmd, hg, hg2, List.countP_append, List.countP_cons, printsStr,
                  eqLine_beq_prod, recvLine_beq_prod, ts_beq_prod, et_beq_prod,
                  payloadHdr_beq_prod]
          · rcases hi : payload.items with _ | fields
            · simp [callback, hmd, hg, hg2, hi, List.countP_append, List.countP_cons,
                    printsStr, eqLine_beq_prod, recvLine_beq_prod, ts_beq_prod,
                    et_beq_prod, payloadHdr_beq_prod]
            · rcases hc : (ctx.conn.isSome && ctx.pandasAvailable)
              · simp [callback, hmd, hg, hg2, hi, hc, List.countP_append, List.countP_cons,
                      List.countP_map, Function.comp, printsStr, eqLine_beq_prod,
                      recvLine_beq_prod, ts_beq_prod, et_beq_prod, payloadHdr_beq_prod,
                      dashLine_beq_prod, emptyLine_beq_prod, payload_beq_prod,
                      localOnly_beq_prod ctx.conn ctx.pandasAvailable hc]
              · rcases hw : ctx.toSqlRaises
                · simp [callback, hmd, hg, hg2, hi, hc, hw, List.countP_append,
                        List.countP_cons, List.countP_map, Function.comp, printsStr,
                        eqLine_beq_prod, recvLine_beq_prod, ts_beq_prod, et_beq_prod,
                        payloadHdr_beq_prod, dashLine_beq_prod, emptyLine_beq_prod,
                        payload_beq_prod, successLine_beq_prod]
                · simp [callback, hmd, hg, hg2, hi, hc, hw, List.countP_append,
                        List.countP_cons, List.countP_map, Function.comp, printsStr,
                        eqLine_beq_prod, recvLine_beq_prod, ts_beq_prod, et_beq_prod,
                        payloadHdr_beq_prod, dashLine_beq_prod, payload_beq_prod]
    intro hmem
    have hmem2 := (List.countP_eq_zero.mp hcount) _ hmem
    simp [printsStr] at hmem2

/-- Witness for C10 with no Databricks connection: the local-only branch is
taken and the dead message is not selected or printed. -/
theorem c10_final_else_unreachable_witness :
    localOnlyMessage localCtx.conn localCtx.pandasAvailable ≠ prodMessage ∧
    Action.print prodMessage ∉ (callback localCtx sampleMsg).1 :=
  ⟨(c10_final_else_unreachable localCtx sampleMsg).1 rfl,
   (c10_final_else_unreachable localCtx sampleMsg).2⟩

/-- Modelled from the spec: only this subscriber script is under src/; the
spec says the repository holds four near-duplicate variants of it that differ
only in cosmetic variations (signal-based timeout, optional-import guards,
emoji-decorated logging).  A variant is identified by which of the three
cosmetic features it carries. -/
structure Variant where
  emojiLogging : Bool
  importGuards : Bool
  signalTimeout : Bool
deriving DecidableEq

/-- Modelled from the spec: the four variants; the file under src/ is the
fully decorated one, the other three each drop one cosmetic feature. -/
def variants : List Variant :=
  [⟨true, true, true⟩, ⟨false, true, true⟩, ⟨true, false, true⟩, ⟨true, true, false⟩]

/-- Modelled from the spec: a variant without emoji-decorated logging prints
the same lines with the decoration characters removed. -/
def stripDecoration (s : String) : String :=
  String.mk (s.data.filter fun c => c.toNat < 0x2100)

/-- Modelled from the spec: how a variant cosmetically re-decorates one
action; only console prints are affected. -/
def variantAction (v : Variant) : Action → Action
  | .print s => .print (if v.emojiLogging then s else stripDecoration s)
  | a => a

/-- Modelled from the spec: each variant runs the same subscriber callback
and differs from the embedded script only in the decoration of its log
lines. -/
def variantCallback (v : Variant) (ctx : CallbackCtx) (msg : Message) :
    List Action × Option PyError :=
  ((callback ctx msg).1.map (variantAction v), (callback ctx msg).2)

/-- Whether an action is observable beyond the console (a write or an ack). -/
def nonPrint (a : Action) : Bool := !a.isPrint

theorem filter_nonPrint_map_variant (v : Variant) (l : List Action) :
    (l.map (variantAction v)).filter nonPrint = l.filter nonPrint := by
  induction l with
  | nil => rfl
  | cons a l ih =>
    cases a <;> simp [variantAction, List.filter_cons, nonPrint, Action.isPrint, ih]

theorem map_variant_id (l : List Action) :
    l.map (variantAction ⟨true, true, true⟩) = l := by
  induction l with
  | nil => rfl
  | cons a l ih => cases a <;> simp [variantAction, ih]

/-- Claim C6: under the spec model of the four near-duplicate variants
(cosmetic differences only), the variants are behaviorally equivalent: on
every message any two variants perform the same non-print actions (the same
SQL writes and acks) in the same order and raise the same exception, the
fully decorated variant is exactly the embedded script, and there are four
distinct variants. -/
theorem c6_variants_equivalent (v1 v2 : Variant) (ctx : CallbackCtx) (msg : Message) :
    (variantCallback v1 ctx msg).1.filter nonPrint =
      (variantCallback v2 ctx msg).1.filter nonPrint ∧
    (variantCallback v1 ctx msg).2 = (variantCallback v2 ctx msg).2 ∧
    variantCallback ⟨true, true, true⟩ ctx msg = callback ctx msg ∧
    variants.length = 4 ∧ variants.Nodup := by
  refine ⟨?_, rfl, ?_, rfl, by decide⟩
  · simp only [variantCallback]
    rw [filter_nonPrint_map_variant, filter_nonPrint_map_variant]
  · simp only [variantCallback, map_variant_id]

end PubsubConsumer
